import Mathlib

/-!
Verification development for the PhoneSensors repository
(src/phonesensors: containers.py, parsers.py, client.py, sources.py).

The Python code is shallowly embedded as executable Lean definitions:

* Python strings are modelled as lists of characters (`Str`), and
  `str.split` with the single-character separator chr 10 is modelled by
  the structurally recursive `splitNl`, which agrees with Python's
  semantics (keeps empty segments, returns count-of-separators + 1
  segments).
* numpy float arrays holding NaN sentinels are modelled as lists of
  `Option Rat`: `none` stands for NaN (the code only ever uses NaN as
  the "unset" marker) and `some q` for an ordinary number.  numpy's
  `equal_nan=True` comparison then coincides with ordinary equality.
* Python exceptions (IndexError, TypeError, ValueError, AttributeError,
  IOError, TimeoutError) are modelled with `Except PyErr`.
* `json.loads` is an external stdlib function; the parser definitions
  are parameterised over a decode function `loads : Str → Option JValue`
  (failure = json.JSONDecodeError).  Concrete runs instantiate it with
  `loadsDemo`, which reproduces `json.loads` on the handful of frames
  used in those runs.
-/

/-- Python strings (already UTF-8 decoded by the client) as character lists. -/
abbrev Str := List Char

/-- JSON values as produced by `json.loads`. -/
inductive JValue where
  | null : JValue
  | bool (b : Bool) : JValue
  | num (q : Rat) : JValue
  | str (s : String) : JValue
  | arr (xs : List JValue) : JValue
  | obj (fields : List (String × JValue)) : JValue
deriving Repr

/-- Python exceptions raised by the embedded code. -/
inductive PyErr where
  | IndexError : PyErr
  | TypeError : PyErr
  | ValueError : PyErr
  | AttributeError : PyErr
  | IOError : PyErr
  | TimeoutError : PyErr
  | BlockedError : PyErr
deriving Repr, DecidableEq

/-- Model of Python `str.split` at the newline separator: splits at every
occurrence of the newline character, keeping empty segments, so the result
always has (number of newlines + 1) segments.  Mirrors
`in_string.split(chr(10))` in `BaseParser.__call__` (parsers.py line 38). -/
def splitNl : Str → List Str
  | [] => [[]]
  | c :: cs =>
    if c = Char.ofNat 10 then
      [] :: splitNl cs
    else
      match splitNl cs with
      | [] => [[c]]
      | h :: t => (c :: h) :: t

/-- Prepend a string onto the first segment of a segment list (helper for
reasoning about `splitNl` of a concatenation). -/
def consHead (x : Str) : List Str → List Str
  | [] => [x]
  | h :: t => (x ++ h) :: t

/-- The two outputs of the line-splitting step of `BaseParser.__call__`
(parsers.py lines 37-40): the candidate complete lines
(`lines_to_parse = split_lines[:-1]`) and the new carried-over buffer
(`self.input_buffer = split_lines[-1]`), computed from the carried-over
buffer concatenated with the incoming chunk. -/
def splitStep (buffer in_string : Str) : List Str × Str :=
  let split_lines := splitNl (buffer ++ in_string)
  (split_lines.dropLast, split_lines.getLastD [])

/-- `BaseParser.__call__` (parsers.py lines 25-49), up to and including the
JSON-decoding loop: prepend the buffer, split on the line terminator, store
the last segment as the new buffer, and decode each preceding segment with
`loads`, silently dropping segments that fail to decode (the `try/except
json.JSONDecodeError` loop appends only successful decodes; the warning is
a log side effect with no bearing on the data).  Returns (new buffer,
`json_entries`).  For the base class `_parse_entries` is the identity, so
`json_entries` is also the value `BaseParser.__call__` returns. -/
def BaseParser.call (loads : Str → Option JValue) (buffer in_string : Str) :
    Str × List JValue :=
  let st := splitStep buffer in_string
  (st.2, st.1.filterMap loads)
/-- Numbers stored in the numpy float arrays: `none` is the NaN "unset"
sentinel and `some q` an ordinary value.  The code only ever produces NaN
as the missing-data marker, so `np.isnan` becomes `Option.isNone` and the
`equal_nan=True` comparisons become ordinary equality. -/
abbrev NFloat := Option Rat

/-- Python values that can reach `SensorData.set` as the `value` or
`timestamp` argument (containers.py line 35): numbers, the NaN sentinel,
Python None (from `sample.get('value')` on a dict without a 'value' key),
lists, and a catch-all for the remaining JSON payloads (strings, booleans,
dicts), which a float array rejects on assignment. -/
inductive PyVal where
  | noneV : PyVal
  | nan : PyVal
  | num (q : Rat) : PyVal
  | list (xs : List PyVal) : PyVal
  | other : PyVal

/-- Assignment of one Python value into a float-array cell: numbers and NaN
are stored, None raises TypeError, sequences raise ValueError, the other
payloads raise TypeError. -/
def PyVal.toNFloat : PyVal → Except PyErr NFloat
  | .num q => .ok (some q)
  | .nan => .ok none
  | .noneV => .error .TypeError
  | .list _ => .error .ValueError
  | .other => .error .TypeError

/-- sources.py: the DataSources enum. -/
inductive DataSources where
  | ACCELERATION : DataSources
  | GRAV_ACCELERATION : DataSources
  | LIN_ACCELERATION : DataSources
  | MAGNETIC_FIELD : DataSources
  | ROTATION_VECTOR : DataSources
  | ROT_VELOCITY : DataSources
  | LIGHT : DataSources
  | AMBIENT_TEMPERATURE : DataSources
  | PRESSURE : DataSources
  | PROXIMITY : DataSources
  | RELATIVE_HUMIDITY : DataSources
deriving Repr, DecidableEq

/-- A numpy float array of shape `(n,)` (scalar channel) or
`(n, elements)` (vector channel), as allocated in `SensorData.__init__`
(containers.py lines 19-21): the shape is `(n, elements)` when
`elements > 1`, else `(n,)`. -/
inductive NPArray where
  | scalar (rows : List NFloat) : NPArray
  | vector (rows : List (List NFloat)) : NPArray
deriving DecidableEq

/-- `len(values)` on either array shape. -/
def NPArray.length : NPArray → Nat
  | .scalar rows => rows.length
  | .vector rows => rows.length

/-- containers.py `SensorData`: samples from a single source, with
parallel `_values` and `_timestamps` arrays. -/
structure SensorData where
  source : DataSources
  elements : Nat
  timestamps : List NFloat
  values : NPArray
deriving DecidableEq

/-- `SensorData.__init__` (containers.py lines 17-21): timestamps are
`np.full(n_entries, nan)`; values are `np.full(shape, nan)` with the
shape rule above. -/
def SensorData.create (n_entries elements : Nat) (source : DataSources) : SensorData where
  source := source
  elements := elements
  timestamps := List.replicate n_entries none
  values :=
    if elements > 1 then
      .vector (List.replicate n_entries (List.replicate elements none))
    else
      .scalar (List.replicate n_entries none)

/-- The `length` property (containers.py lines 23-25): `len(self._values)`. -/
def SensorData.length (sd : SensorData) : Nat := sd.values.length

/-- numpy single-element assignment `arr[n] = v` on a 1-D float array:
a negative index wraps by adding the length, an index that is still out
of range raises IndexError (before the value is examined), and otherwise
the cell receives the float conversion of `v`. -/
def npSetScalar (xs : List NFloat) (n : Int) (v : PyVal) : Except PyErr (List NFloat) :=
  let len : Int := xs.length
  let i := if n < 0 then n + len else n
  if 0 ≤ i ∧ i < len then do
    let f ← v.toNFloat
    .ok (xs.set i.toNat f)
  else .error .IndexError

/-- numpy row assignment `arr[n] = v` on a 2-D float array of row width
`elements`: numbers and NaN broadcast across the row; a sequence must
have exactly `elements` numeric items (a wrong length raises
ValueError); None raises TypeError. -/
def PyVal.toRow (elements : Nat) : PyVal → Except PyErr (List NFloat)
  | .nan => .ok (List.replicate elements none)
  | .num q => .ok (List.replicate elements (some q))
  | .noneV => .error .TypeError
  | .list xs => if xs.length = elements then xs.mapM PyVal.toNFloat else .error .ValueError
  | .other => .error .TypeError

/-- numpy row assignment with index handling as in `npSetScalar`. -/
def npSetRow (rows : List (List NFloat)) (elements : Nat) (n : Int) (v : PyVal) :
    Except PyErr (List (List NFloat)) :=
  let len : Int := rows.length
  let i := if n < 0 then n + len else n
  if 0 ≤ i ∧ i < len then do
    let r ← PyVal.toRow elements v
    .ok (rows.set i.toNat r)
  else .error .IndexError

/-- `SensorData.set` (containers.py lines 35-37): `self._timestamps[n] =
timestamp` followed by `self._values[n] = value`.  The timestamp
assignment runs first, so an out-of-range `n` raises IndexError before
anything is written. -/
def SensorData.set (sd : SensorData) (value timestamp : PyVal) (n : Int) :
    Except PyErr SensorData := do
  let ts ← npSetScalar sd.timestamps n timestamp
  match sd.values with
  | .scalar xs => do
      let xs2 ← npSetScalar xs n value
      .ok { sd with timestamps := ts, values := .scalar xs2 }
  | .vector rows => do
      let rows2 ← npSetRow rows sd.elements n value
      .ok { sd with timestamps := ts, values := .vector rows2 }

/-- numpy boolean-mask indexing `arr[mask]`: the mask length must match
the array length (IndexError otherwise); keeps the entries at the True
positions. -/
def boolIndex {α : Type} (xs : List α) (mask : List Bool) : Except PyErr (List α) :=
  if xs.length = mask.length then
    .ok ((xs.zip mask).filterMap (fun p => if p.2 then some p.1 else none))
  else .error .IndexError

/-- `SensorData.clean` (containers.py lines 39-42).  `nanmask =
np.atleast_1d(~np.any(np.isnan(self._values), axis=-1))`: on a 2-D
(vector) array this yields one Bool per row; on a 1-D (scalar) array
`np.any(..., axis=-1)` collapses the whole array to a single Bool, which
`np.atleast_1d` turns into a one-element mask.  `self._values[nanmask]`
and `self._timestamps[nanmask]` then use boolean indexing, which raises
IndexError when the mask length differs from the array length. -/
def SensorData.clean (sd : SensorData) : Except PyErr SensorData :=
  match sd.values with
  | .vector rows => do
      let nanmask := rows.map (fun r => !(r.any (fun x => x.isNone)))
      let vals ← boolIndex rows nanmask
      let ts ← boolIndex sd.timestamps nanmask
      .ok { sd with values := .vector vals, timestamps := ts }
  | .scalar xs => do
      let nanmask := [!(xs.any (fun x => x.isNone))]
      let vals ← boolIndex xs nanmask
      let ts ← boolIndex sd.timestamps nanmask
      .ok { sd with values := .scalar vals, timestamps := ts }

/-- containers.py `SensorDataCollection`: one `SensorData` per source
(lines 72-83). -/
structure SensorDataCollection where
  acc : SensorData
  grav_acc : SensorData
  lin_acc : SensorData
  mag : SensorData
  omega : SensorData
  rot : SensorData
  light : SensorData
  temp : SensorData
  pressure : SensorData
  prox : SensorData
  hum : SensorData
deriving DecidableEq

/-- `SensorDataCollection.__init__` (lines 72-83). -/
def SensorDataCollection.create (n_entries : Nat) : SensorDataCollection where
  acc := SensorData.create n_entries 3 .ACCELERATION
  grav_acc := SensorData.create n_entries 3 .GRAV_ACCELERATION
  lin_acc := SensorData.create n_entries 3 .LIN_ACCELERATION
  mag := SensorData.create n_entries 3 .MAGNETIC_FIELD
  omega := SensorData.create n_entries 3 .ROT_VELOCITY
  rot := SensorData.create n_entries 3 .ROTATION_VECTOR
  light := SensorData.create n_entries 1 .LIGHT
  temp := SensorData.create n_entries 1 .AMBIENT_TEMPERATURE
  pressure := SensorData.create n_entries 1 .PRESSURE
  prox := SensorData.create n_entries 1 .PROXIMITY
  hum := SensorData.create n_entries 1 .RELATIVE_HUMIDITY

/-- The `_all` list built at the end of `SensorDataCollection.__init__`
(lines 84-85).  It holds ten of the eleven channels: `self.prox` is
absent from the source list. -/
def SensorDataCollection.all (c : SensorDataCollection) : List SensorData :=
  [c.acc, c.grav_acc, c.lin_acc, c.mag, c.omega, c.rot, c.light, c.temp, c.pressure, c.hum]

/-- `SensorDataCollection.clean` (lines 87-89): `for sensorData in
self._all: sensorData.clean()` — cleans, in order, exactly the ten
channels listed in `_all` (the first exception aborts the loop) and
leaves `prox` untouched, since `prox` is not in `_all`. -/
def SensorDataCollection.clean (c : SensorDataCollection) :
    Except PyErr SensorDataCollection := do
  let acc ← c.acc.clean
  let grav_acc ← c.grav_acc.clean
  let lin_acc ← c.lin_acc.clean
  let mag ← c.mag.clean
  let omega ← c.omega.clean
  let rot ← c.rot.clean
  let light ← c.light.clean
  let temp ← c.temp.clean
  let pressure ← c.pressure.clean
  let hum ← c.hum.clean
  .ok { c with acc := acc, grav_acc := grav_acc, lin_acc := lin_acc, mag := mag,
               omega := omega, rot := rot, light := light, temp := temp,
               pressure := pressure, hum := hum }

/-- Python dict lookup on the fields of a decoded JSON object (with
duplicate keys, `json.loads` keeps the last occurrence). -/
def JValue.lookup (fields : List (String × JValue)) (k : String) : Option JValue :=
  fields.foldl (fun acc p => if p.1 = k then some p.2 else acc) none

/-- `entry.get(key, None)` as used in `_parse_entries` (parsers.py lines
60-70): dict lookup with default None; on a non-dict entry the attribute
lookup `.get` raises AttributeError. -/
def JValue.get (j : JValue) (k : String) : Except PyErr (Option JValue) :=
  match j with
  | .obj fields => .ok (JValue.lookup fields k)
  | _ => .error .AttributeError

/-- Conversion of a decoded JSON value into the Python value handed to
`SensorData.set`: numbers stay numbers, arrays become lists, null becomes
None, and the remaining shapes are payloads a float array rejects. -/
def JValue.toPyVal : JValue → PyVal
  | .num q => .num q
  | .arr xs => .list (xs.attach.map (fun x => JValue.toPyVal x.1))
  | .null => .noneV
  | _ => .other
termination_by j => sizeOf j
decreasing_by
  have := List.sizeOf_lt_of_mem x.2
  simp only [JValue.arr.sizeOf_spec]
  omega

/-- `SensorStreamerParser._parse_sample` (parsers.py lines 74-79): an
absent field (None) yields `(nan, nan)`; otherwise the pair
`(sample.get('value'), sample.get('timestamp', nan))`, where `.get` on a
non-dict sample raises AttributeError. -/
def SensorStreamerParser.parse_sample (sample : Option JValue) : Except PyErr (PyVal × PyVal) :=
  match sample with
  | none => .ok (.nan, .nan)
  | some j =>
    match j with
    | .obj fields =>
        let v := match JValue.lookup fields "value" with
          | some jv => jv.toPyVal
          | none => PyVal.noneV
        let t := match JValue.lookup fields "timestamp" with
          | some jt => jt.toPyVal
          | none => PyVal.nan
        .ok (v, t)
    | _ => .error .AttributeError

/-- One iteration of the entry loop of `SensorStreamerParser._parse_entries`
(parsers.py lines 59-70): for each recognized field name, in source
order, `data.<channel>.set(*self._parse_sample(entry.get(name, None)), n)`. -/
def SensorStreamerParser.parse_one (data : SensorDataCollection) (n : Int) (entry : JValue) :
    Except PyErr SensorDataCollection := do
  let s1 ← SensorStreamerParser.parse_sample (← entry.get "accelerometer")
  let acc ← data.acc.set s1.1 s1.2 n
  let s2 ← SensorStreamerParser.parse_sample (← entry.get "gravity")
  let grav_acc ← data.grav_acc.set s2.1 s2.2 n
  let s3 ← SensorStreamerParser.parse_sample (← entry.get "linearAcceleration")
  let lin_acc ← data.lin_acc.set s3.1 s3.2 n
  let s4 ← SensorStreamerParser.parse_sample (← entry.get "magneticField")
  let mag ← data.mag.set s4.1 s4.2 n
  let s5 ← SensorStreamerParser.parse_sample (← entry.get "gyroscope")
  let omega ← data.omega.set s5.1 s5.2 n
  let s6 ← SensorStreamerParser.parse_sample (← entry.get "rotationVector")
  let rot ← data.rot.set s6.1 s6.2 n
  let s7 ← SensorStreamerParser.parse_sample (← entry.get "light")
  let light ← data.light.set s7.1 s7.2 n
  let s8 ← SensorStreamerParser.parse_sample (← entry.get "pressure")
  let pressure ← data.pressure.set s8.1 s8.2 n
  let s9 ← SensorStreamerParser.parse_sample (← entry.get "ambientTemperature")
  let temp ← data.temp.set s9.1 s9.2 n
  let s10 ← SensorStreamerParser.parse_sample (← entry.get "proximity")
  let prox ← data.prox.set s10.1 s10.2 n
  let s11 ← SensorStreamerParser.parse_sample (← entry.get "relativeHumidity")
  let hum ← data.hum.set s11.1 s11.2 n
  .ok { acc := acc, grav_acc := grav_acc, lin_acc := lin_acc, mag := mag, omega := omega,
        rot := rot, light := light, temp := temp, pressure := pressure, prox := prox,
        hum := hum }

/-- The `for n, entry in enumerate(entries)` loop of `_parse_entries`. -/
def SensorStreamerParser.parseLoop (data : SensorDataCollection) (n : Nat) :
    List JValue → Except PyErr SensorDataCollection
  | [] => .ok data
  | e :: rest => do
      let d ← SensorStreamerParser.parse_one data (Int.ofNat n) e
      SensorStreamerParser.parseLoop d (n + 1) rest

/-- `SensorStreamerParser._parse_entries` (parsers.py lines 57-72):
allocate a collection sized to the number of decoded entries, fill it
entry by entry, then `data.clean()` and return. -/
def SensorStreamerParser.parse_entries (entries : List JValue) :
    Except PyErr SensorDataCollection := do
  let d ← SensorStreamerParser.parseLoop (SensorDataCollection.create entries.length) 0 entries
  d.clean

/-- `SensorStreamerParser.__call__`: the inherited `BaseParser.__call__`
followed by `_parse_entries`.  The buffer is updated before
`_parse_entries` runs, so the returned buffer is in place even when the
entry parsing raises. -/
def SensorStreamerParser.call (loads : Str → Option JValue) (buffer in_string : Str) :
    Str × Except PyErr SensorDataCollection :=
  let r := BaseParser.call loads buffer in_string
  (r.1, SensorStreamerParser.parse_entries r.2)

/-- The `while parsed is not None:` loop of `SensorStreamerClient._read`
(client.py lines 62-67), entered with `parsed = None`.  `sock` lists the
strings that successive `recv(...).decode('utf-8')` calls would deliver,
"" standing for a zero-byte read (peer closed).  The fuel argument
bounds the number of iterations; `recv` on an exhausted list (which
would block forever on a real socket) is folded into the same
BlockedError. -/
def SensorStreamerClient.readLoop (loads : Str → Option JValue) :
    Nat → Option SensorDataCollection → Str → List Str →
    Except PyErr (Option SensorDataCollection × Str × List Str)
  | 0, _, _, _ => .error .BlockedError
  | fuel + 1, parsed, buf, sock =>
    if parsed.isSome then
      match sock with
      | [] => .error .BlockedError
      | raw :: rest =>
        if raw = ([] : Str) then .error .IOError
        else
          let r := SensorStreamerParser.call loads buf raw
          match r.2 with
          | .error e => .error e
          | .ok d => SensorStreamerClient.readLoop loads fuel (some d) r.1 rest
    else .ok (parsed, buf, sock)

/-- `SensorStreamerClient._read` (client.py lines 55-70): when `select`
reports the socket readable, run the read loop (which, as written,
initialises `parsed = None` and therefore exits immediately); when not
readable within the timeout, raise TimeoutError. -/
def SensorStreamerClient.read (loads : Str → Option JValue) (fuel : Nat) (readable : Bool)
    (buf : Str) (sock : List Str) :
    Except PyErr (Option SensorDataCollection × Str × List Str) :=
  if readable then SensorStreamerClient.readLoop loads fuel none buf sock
  else .error .TimeoutError

/-- The parser buffer threaded through a sequence of feed calls (a fresh
parser starts with buffer ""). -/
def feedAll (loads : Str → Option JValue) (buf : Str) : List Str → Str
  | [] => buf
  | c :: rest => feedAll loads (BaseParser.call loads buf c).1 rest

/-- Pointwise update of a decode function: behaves like `f` except that
the line `k` now decodes to `v` (used to state "as if the bad line had
decoded successfully"). -/
def updateFn (f : Str → Option JValue) (k : Str) (v : JValue) : Str → Option JValue :=
  fun s => if s = k then some v else f s

/-- `json.loads` restricted to the concrete frames appearing in the
closed runs below, mirroring the Python results: the text `1` decodes to
the number 1, an empty pair of braces decodes to the empty dict, a
one-field object maps "a" to 1; every other string fed in those runs
("x", "abc", "") is not valid JSON, so `json.loads` raises
JSONDecodeError, i.e. `none`. -/
def loadsDemo : Str → Option JValue := fun s =>
  if s = "1".toList then some (JValue.num 1)
  else if s = "\x7b\x7d".toList then some (JValue.obj [])
  else if s = "\x7b\"a\":1\x7d".toList then some (JValue.obj [("a", JValue.num 1)])
  else none

/-- The number of decoded entries that contain a given field name — the
count the specification says each channel has after compaction. -/
def countWithField (entries : List JValue) (k : String) : Nat :=
  (entries.filter (fun e =>
    match e with
    | .obj fields => (JValue.lookup fields k).isSome
    | _ => false)).length
theorem splitNl_ne_nil (s : Str) : splitNl s ≠ [] := by
  induction s with
  | nil => simp [splitNl]
  | cons c cs ih =>
    simp only [splitNl]
    split
    · simp
    · match h : splitNl cs with
      | [] => simp
      | x :: t => simp

/-- The last segment of a split never contains the separator. -/
theorem splitNl_getLast_no_nl (s : Str) : Char.ofNat 10 ∉ (splitNl s).getLastD [] := by
  induction s with
  | nil => simp [splitNl]
  | cons c cs ih =>
    simp only [splitNl]
    rcases h : splitNl cs with _ | ⟨x, t⟩
    · exact absurd h (splitNl_ne_nil cs)
    · rw [h] at ih
      split
      · simpa [List.getLastD_cons] using ih
      · rename_i hc
        rcases t with _ | ⟨y, t2⟩
        · simp only [List.getLastD_cons, List.getLastD] at ih ⊢
          intro hmem
          rcases List.mem_cons.mp hmem with he | hx
          · exact hc he.symm
          · exact ih hx
        · simpa [List.getLastD_cons] using ih


/-- A string without the separator splits into a single segment. -/
theorem splitNl_eq_single (s : Str) (h : Char.ofNat 10 ∉ s) : splitNl s = [s] := by
  induction s with
  | nil => simp [splitNl]
  | cons c cs ih =>
    simp only [List.mem_cons, not_or] at h
    simp only [splitNl]
    rw [if_neg (by exact fun hc => h.1 hc.symm)]
    rw [ih h.2]

theorem consHead_ne_nil (x : Str) (l : List Str) : consHead x l ≠ [] := by
  cases l <;> simp [consHead]

theorem getLastD_append_right {α : Type} (xs : List α) {ys : List α} (d : α) (h : ys ≠ []) :
    (xs ++ ys).getLastD d = ys.getLastD d := by
  rw [List.getLastD_eq_getLast? d, List.getLastD_eq_getLast? d,
    List.getLast?_append_of_ne_nil xs h]


theorem dropLast_cons_ne_nil {α : Type} (a : α) {l : List α} (h : l ≠ []) :
    (a :: l).dropLast = a :: l.dropLast := by
  rcases l with _ | ⟨x, t⟩
  · exact absurd rfl h
  · rfl

theorem getLastD_cons_ne_nil {α : Type} (a d : α) {l : List α} (h : l ≠ []) :
    (a :: l).getLastD d = l.getLastD d := by
  rcases l with _ | ⟨x, t⟩
  · exact absurd rfl h
  · simp [List.getLastD_cons]

theorem splitNl_cons_nl (cs : Str) : splitNl (Char.ofNat 10 :: cs) = [] :: splitNl cs := by
  simp [splitNl]

theorem splitNl_cons_ne {c : Char} (cs : Str) (hc : ¬ c = Char.ofNat 10) :
    splitNl (c :: cs) = consHead [c] (splitNl cs) := by
  rcases h : splitNl cs with _ | ⟨x, t⟩
  · exact absurd h (splitNl_ne_nil cs)
  · simp [splitNl, hc, consHead, h]

theorem consHead_consHead (a b : Str) (l : List Str) :
    consHead a (consHead b l) = consHead (a ++ b) l := by
  cases l <;> simp [consHead, List.append_assoc]

/-- How `splitNl` acts on a concatenation: the segments of `a` except the
last, then the last segment of `a` merged into the first segment of `b`. -/
theorem splitNl_append (a b : Str) :
    splitNl (a ++ b)
      = (splitNl a).dropLast ++ consHead ((splitNl a).getLastD []) (splitNl b) := by
  induction a with
  | nil =>
    rcases h : splitNl b with _ | ⟨y, ty⟩
    · exact absurd h (splitNl_ne_nil b)
    · rw [List.nil_append, h]
      simp [splitNl, consHead]
  | cons c cs ih =>
    rcases hX : splitNl cs with _ | ⟨x, t⟩
    · exact absurd hX (splitNl_ne_nil cs)
    · rw [hX] at ih
      by_cases hc : c = Char.ofNat 10
      · subst hc
        rw [List.cons_append, splitNl_cons_nl, splitNl_cons_nl, ih, hX]
        rw [dropLast_cons_ne_nil _ (List.cons_ne_nil x t)]
        rw [getLastD_cons_ne_nil _ _ (List.cons_ne_nil x t)]
        simp
      · rw [List.cons_append, splitNl_cons_ne _ hc, splitNl_cons_ne _ hc, ih, hX]
        rcases t with _ | ⟨z, tz⟩
        · rw [show ([x] : List Str).dropLast = [] from rfl,
              show ([x] : List Str).getLastD [] = x from rfl,
              show consHead [c] [x] = [[c] ++ x] from rfl,
              show ([[c] ++ x] : List Str).dropLast = [] from rfl,
              show ([[c] ++ x] : List Str).getLastD [] = [c] ++ x from rfl,
              List.nil_append, List.nil_append, consHead_consHead]
        · have hzz : (z :: tz : List Str) ≠ [] := List.cons_ne_nil z tz
          rw [dropLast_cons_ne_nil x hzz, getLastD_cons_ne_nil x ([] : Str) hzz,
              show consHead [c] (x :: z :: tz) = ([c] ++ x) :: z :: tz from rfl,
              dropLast_cons_ne_nil ([c] ++ x) hzz,
              getLastD_cons_ne_nil ([c] ++ x) ([] : Str) hzz,
              List.cons_append,
              show ∀ r : List Str, consHead [c] (x :: r) = ([c] ++ x) :: r from fun r => rfl,
              List.cons_append]
          rw [List.cons_append]

/-- Joining the segments of a split (each non-final segment followed by
the terminator, then the final segment) reconstructs the input: the
candidate complete lines really are all the terminated lines of
buffer-plus-chunk. -/
theorem splitNl_reconstruct (s : Str) :
    ((splitNl s).dropLast.map (fun l => l ++ [Char.ofNat 10])).flatten
        ++ (splitNl s).getLastD [] = s := by
  induction s with
  | nil => simp [splitNl]
  | cons c cs ih =>
    rcases h : splitNl cs with _ | ⟨x, t⟩
    · exact absurd h (splitNl_ne_nil cs)
    · rw [h] at ih
      by_cases hc : c = Char.ofNat 10
      · subst hc
        rw [splitNl_cons_nl, h,
            dropLast_cons_ne_nil ([] : Str) (List.cons_ne_nil x t),
            getLastD_cons_ne_nil ([] : Str) ([] : Str) (List.cons_ne_nil x t)]
        simp only [List.map_cons, List.flatten_cons, List.nil_append, List.append_assoc]
        rw [List.singleton_append, ih]
      · rw [splitNl_cons_ne _ hc, h]
        rcases t with _ | ⟨z, tz⟩
        · simp only [consHead, List.dropLast_single, List.map_nil, List.flatten_nil,
            List.nil_append, List.getLastD_cons, List.getLastD_nil] at ih ⊢
          rw [← ih]
          simp
        · have hzz : (z :: tz : List Str) ≠ [] := List.cons_ne_nil z tz
          rw [show consHead [c] (x :: z :: tz) = ([c] ++ x) :: z :: tz from rfl,
              dropLast_cons_ne_nil ([c] ++ x) hzz,
              getLastD_cons_ne_nil ([c] ++ x) ([] : Str) hzz]
          rw [dropLast_cons_ne_nil x hzz, getLastD_cons_ne_nil x ([] : Str) hzz] at ih
          simp only [List.map_cons, List.flatten_cons, List.append_assoc,
            List.singleton_append, List.cons_append, List.nil_append] at ih ⊢
          rw [ih]

/-- Claim C1 (refuted, code bug): the spec says that when the socket is
readable, `_read` reads bytes, feeds the parser, and loops until a
non-empty Snapshot is returned, never yielding an empty or absent batch.
The code initialises `parsed = None` and guards the loop with
`while parsed is not None:`, so the body can never run: for any positive
fuel, any parser buffer and any pending socket data, `_read` returns
`None` immediately and reads nothing (the pending-recv list comes back
untouched), contradicting the claim and the method's own docstring. -/
theorem client_read_returns_none_without_reading (loads : Str → Option JValue)
    (fuel : Nat) (buf : Str) (sock : List Str) :
    SensorStreamerClient.read loads (fuel + 1) true buf sock
      = Except.ok (none, buf, sock) := rfl

/-- Claim C3 (refuted, code bug): the spec says a readable socket whose
recv returns zero bytes must surface a terminal connection-closed
IOError.  Because the read loop of `_read` never executes (same defect as
C1), the `raise IOError("Device closed connection.")` branch is dead
code: with "" as the next pending recv result, `_read` still returns
`None` successfully and raises nothing. -/
theorem client_zero_byte_read_not_surfaced (loads : Str → Option JValue)
    (fuel : Nat) (buf : Str) (rest : List Str) :
    SensorStreamerClient.read loads (fuel + 1) true buf (([] : Str) :: rest)
      = Except.ok (none, buf, ([] : Str) :: rest)
    ∧ ∀ e : PyErr, SensorStreamerClient.read loads (fuel + 1) true buf (([] : Str) :: rest)
        ≠ Except.error e := by
  refine ⟨rfl, fun e h => ?_⟩
  rw [show SensorStreamerClient.read loads (fuel + 1) true buf (([] : Str) :: rest)
      = Except.ok (none, buf, ([] : Str) :: rest) from rfl] at h
  exact Except.noConfusion h

/-- Claim C4 (refuted, code bug): on a feed whose buffer-plus-chunk holds
zero complete lines, the spec (and the repository's own
test_partial_json, which expects `None`) demands a distinguishable
"no data yet" marker.  Instead, `SensorStreamerParser` builds a
zero-capacity Snapshot and `clean()` then raises IndexError on the first
scalar channel (the one-element `atleast_1d` mask does not match the
empty values array), while plain `BaseParser` returns an empty list, not
a marker.  The unterminated input is indeed retained in the buffer. -/
theorem feed_no_complete_lines_raises :
    SensorStreamerParser.call loadsDemo [] ("abc".toList)
      = ("abc".toList, Except.error PyErr.IndexError)
    ∧ BaseParser.call loadsDemo [] ("abc".toList) = ("abc".toList, []) := ⟨rfl, rfl⟩

/-- Claim C10 (confirmed): a complete line holding valid JSON that is not
an object — the line `1` — decodes successfully, and batch construction
then calls `entry.get("accelerometer", None)` on the integer, raising
AttributeError instead of returning a Snapshot or dropping the line. -/
theorem feed_non_object_line_raises :
    SensorStreamerParser.call loadsDemo [] ("1\n".toList)
      = (([] : Str), Except.error PyErr.AttributeError) := rfl

/-- Claim C2 (refuted, code bug): the spec says every channel, proximity
included, is compacted so that its length equals the number of entries
containing its field.  `_all` omits `self.prox`, so feeding one entry
with no fields at all leaves the proximity channel at length 1 (its
all-NaN row survives) while every compacted channel is empty; and for a
batch of two entries `clean()` raises IndexError on the first scalar
channel before any Snapshot is returned. -/
theorem prox_channel_not_compacted :
    Except.map (fun c => (c.prox.length, c.acc.length, c.light.length))
        (SensorStreamerParser.call loadsDemo [] ("\x7b\x7d\n".toList)).2
      = Except.ok ((1 : Nat), (0 : Nat), (0 : Nat))
    ∧ countWithField [JValue.obj []] "proximity" = 0
    ∧ (SensorStreamerParser.call loadsDemo [] ("\x7b\x7d\n\x7b\x7d\n".toList)).2
      = Except.error PyErr.IndexError := ⟨rfl, rfl, rfl⟩

/-- Claim C8 (refuted, code bug): compaction is not idempotent.  A scalar
channel of capacity 1 with its unset row compacts to an empty store, but
compacting that result raises IndexError: `np.any(isnan, axis=-1)` on a
1-D array is a single Bool, `atleast_1d` makes it a one-element mask,
and boolean indexing rejects a length-1 mask on a length-0 array.  The
same happens to an already-compacted Snapshot at its first scalar
channel (light). -/
theorem clean_not_idempotent :
    (SensorData.create 1 1 DataSources.LIGHT).clean
      = Except.ok { source := DataSources.LIGHT, elements := 1,
                    timestamps := ([] : List NFloat), values := NPArray.scalar [] }
    ∧ ((SensorData.create 1 1 DataSources.LIGHT).clean >>= SensorData.clean)
      = Except.error PyErr.IndexError
    ∧ Except.map (fun c => c.light.length) (SensorDataCollection.create 1).clean
      = Except.ok (0 : Nat)
    ∧ ((SensorDataCollection.create 1).clean >>= SensorDataCollection.clean)
      = Except.error PyErr.IndexError := ⟨rfl, rfl, rfl, rfl⟩

/-- Claim C9 (counterexample): the claim says every index outside
`[0, N)` makes `set` fail.  numpy wraps negative indices: on a capacity-2
store, `set(5, 0, -1)` is outside `[0, 2)` yet succeeds, silently
overwriting row 1. -/
theorem set_negative_index_accepted :
    (SensorData.create 2 1 DataSources.LIGHT).set (PyVal.num 5) (PyVal.num 0) (-1)
      = Except.ok { source := DataSources.LIGHT, elements := 1,
                    timestamps := [none, some 0],
                    values := NPArray.scalar [none, some 5] } := rfl

/-- Claim C9 (amended): `set` fails with IndexError — overwriting nothing,
since the failing timestamp assignment is the first statement — exactly
when the index is outside `[-N, N)`, where N is the store's current
length; negative indices in `[-N, 0)` wrap around instead of failing. -/
theorem set_out_of_range_raises (sd : SensorData) (v t : PyVal) (i : Int)
    (h : i < -(sd.timestamps.length : Int) ∨ (sd.timestamps.length : Int) ≤ i) :
    sd.set v t i = Except.error PyErr.IndexError := by
  have hcond : ¬ (0 ≤ (if i < 0 then i + (sd.timestamps.length : Int) else i)
      ∧ (if i < 0 then i + (sd.timestamps.length : Int) else i)
        < (sd.timestamps.length : Int)) := by
    rcases h with h | h <;> split <;> omega
  simp only [SensorData.set, npSetScalar]
  rw [if_neg hcond]
  rfl

/-- Claim C9 (witness): index 5 on a capacity-2 store satisfies the
out-of-range hypothesis and raises IndexError. -/
theorem set_out_of_range_raises_witness :
    (((5 : Int) < -(((SensorData.create 2 1 DataSources.LIGHT).timestamps.length : Nat) : Int)
        ∨ (((SensorData.create 2 1 DataSources.LIGHT).timestamps.length : Nat) : Int) ≤ 5))
    ∧ (SensorData.create 2 1 DataSources.LIGHT).set (PyVal.num 1) PyVal.nan 5
        = Except.error PyErr.IndexError :=
  ⟨Or.inr (by decide), set_out_of_range_raises _ _ _ _ (Or.inr (by decide))⟩

/-- Claim C5 (counterexample): feeding the input "1" + newline + "x"
split at byte offset 2 (chunks "1"+newline and "x") gives a final feed
call returning an empty batch, while the single whole-input call returns
the decoded entry — the final returned Snapshots differ, refuting the
claim as stated. -/
theorem split_feed_counterexample :
    (BaseParser.call loadsDemo
        (BaseParser.call loadsDemo [] ("1\n".toList)).1 ("x".toList)).2
      ≠ (BaseParser.call loadsDemo [] ("1\n".toList ++ "x".toList)).2 := by
  intro h
  exact absurd (congrArg List.length h) (by decide)

/-- Claim C5 (amended): splitting one feed call's input at any byte
offset and feeding the two sub-chunks sequentially is equivalent to
feeding the whole input at once in the following sense: the final
carried-over buffer is identical, and the concatenation of the two
returned entry batches equals the batch of the single call.  (The final
call's own batch can differ — entries are returned by the call in which
their terminator arrives — which is what the counterexample exhibits.) -/
theorem split_feed_amended (loads : Str → Option JValue) (buf s1 s2 : Str) :
    (BaseParser.call loads (BaseParser.call loads buf s1).1 s2).1
      = (BaseParser.call loads buf (s1 ++ s2)).1
    ∧ (BaseParser.call loads buf s1).2
        ++ (BaseParser.call loads (BaseParser.call loads buf s1).1 s2).2
      = (BaseParser.call loads buf (s1 ++ s2)).2 := by
  have hassoc : buf ++ (s1 ++ s2) = (buf ++ s1) ++ s2 := (List.append_assoc buf s1 s2).symm
  have hsingle : splitNl ((splitNl (buf ++ s1)).getLastD [])
      = [(splitNl (buf ++ s1)).getLastD []] :=
    splitNl_eq_single _ (splitNl_getLast_no_nl (buf ++ s1))
  constructor
  · show (splitNl ((splitNl (buf ++ s1)).getLastD [] ++ s2)).getLastD []
        = (splitNl (buf ++ (s1 ++ s2))).getLastD []
    rw [hassoc, splitNl_append ((buf ++ s1) : Str) s2,
        splitNl_append ((splitNl (buf ++ s1)).getLastD []) s2, hsingle,
        show ([(splitNl (buf ++ s1)).getLastD []] : List Str).dropLast = [] from rfl,
        show ([(splitNl (buf ++ s1)).getLastD []] : List Str).getLastD []
          = (splitNl (buf ++ s1)).getLastD [] from rfl,
        List.nil_append,
        getLastD_append_right _ _ (consHead_ne_nil _ _)]
  · show (splitNl (buf ++ s1)).dropLast.filterMap loads
        ++ (splitNl ((splitNl (buf ++ s1)).getLastD [] ++ s2)).dropLast.filterMap loads
      = (splitNl (buf ++ (s1 ++ s2))).dropLast.filterMap loads
    rw [hassoc, splitNl_append ((buf ++ s1) : Str) s2,
        splitNl_append ((splitNl (buf ++ s1)).getLastD []) s2, hsingle,
        show ([(splitNl (buf ++ s1)).getLastD []] : List Str).dropLast = [] from rfl,
        show ([(splitNl (buf ++ s1)).getLastD []] : List Str).getLastD []
          = (splitNl (buf ++ s1)).getLastD [] from rfl,
        List.nil_append,
        List.dropLast_append_of_ne_nil _ (consHead_ne_nil _ _),
        List.filterMap_append]

/-- Claim C6 (confirmed, at the cited `BaseParser.__call__` level): when
one candidate line fails JSON decoding it is dropped, every other
successfully decoded line of the same call still contributes, in order,
to the returned batch, and the carried-over buffer is exactly what it
would have been had the bad line decoded successfully (the buffer is
fixed before decoding and does not depend on decode outcomes at all). -/
theorem bad_line_dropped (loads : Str → Option JValue) (b c : Str) (pre post : List Str)
    (bad : Str) (hsplit : (splitStep b c).1 = pre ++ bad :: post)
    (hbad : loads bad = none) :
    (BaseParser.call loads b c).2 = pre.filterMap loads ++ post.filterMap loads
    ∧ ∀ e : JValue,
        (BaseParser.call (updateFn loads bad e) b c).1 = (BaseParser.call loads b c).1 := by
  constructor
  · show (splitStep b c).1.filterMap loads = _
    rw [hsplit, List.filterMap_append, List.filterMap_cons, hbad]
  · intro e
    rfl

/-- Claim C6 (witness): in the single call on a three-line chunk whose
middle line "abc" fails to decode, the two good lines still make up the
batch and the buffer matches the counterfactual run. -/
theorem bad_line_dropped_witness :
    (splitStep [] ("\x7b\"a\":1\x7d\nabc\n\x7b\x7d\n".toList)).1
      = ["\x7b\"a\":1\x7d".toList] ++ "abc".toList :: ["\x7b\x7d".toList]
    ∧ loadsDemo ("abc".toList) = none
    ∧ ((BaseParser.call loadsDemo [] ("\x7b\"a\":1\x7d\nabc\n\x7b\x7d\n".toList)).2
        = (["\x7b\"a\":1\x7d".toList]).filterMap loadsDemo
            ++ (["\x7b\x7d".toList]).filterMap loadsDemo
       ∧ ∀ e : JValue,
          (BaseParser.call (updateFn loadsDemo ("abc".toList) e) []
              ("\x7b\"a\":1\x7d\nabc\n\x7b\x7d\n".toList)).1
            = (BaseParser.call loadsDemo [] ("\x7b\"a\":1\x7d\nabc\n\x7b\x7d\n".toList)).1) :=
  ⟨by decide, rfl, bad_line_dropped loadsDemo _ _ _ _ _ (by decide) rfl⟩

/-- Helper for Claim C7: a buffer without the terminator stays without
the terminator across any further sequence of feed calls, because each
call replaces it by the final segment of a split. -/
theorem feedAll_no_nl (loads : Str → Option JValue) (chunks : List Str) :
    ∀ buf : Str, Char.ofNat 10 ∉ buf → Char.ofNat 10 ∉ feedAll loads buf chunks := by
  induction chunks with
  | nil => exact fun buf h => h
  | cons c rest ih =>
    intro buf h
    exact ih _ (splitNl_getLast_no_nl (buf ++ c))

/-- Claim C7 (confirmed): starting from a fresh parser (empty buffer),
after any sequence of feed calls the carried-over buffer contains no
line terminator; moreover in every single call the consumed candidate
lines, re-joined with their terminators and followed by the new buffer,
reconstruct buffer-plus-chunk exactly (so every complete line is
consumed by that call), and the new buffer never holds a terminator. -/
theorem buffer_never_holds_terminator (loads : Str → Option JValue) (chunks : List Str) :
    Char.ofNat 10 ∉ feedAll loads [] chunks
    ∧ ∀ b c : Str,
        (((splitStep b c).1.map (fun l => l ++ [Char.ofNat 10])).flatten
            ++ (splitStep b c).2 = b ++ c)
        ∧ Char.ofNat 10 ∉ (BaseParser.call loads b c).1 := by
  refine ⟨feedAll_no_nl loads chunks [] (by simp), fun b c => ⟨?_, ?_⟩⟩
  · exact splitNl_reconstruct (b ++ c)
  · exact splitNl_getLast_no_nl (b ++ c)
